import Mathlib

/-!
Shallow embedding of src/ml-service/app.py (EcoX ML microservice).

Modelling conventions:
* Python floats are modelled as exact rationals (`ℚ`).
* The caller-supplied JSON map for `calculate_from_energy_data` is modelled as a
  record of optional `PyVal` fields (the only keys the code reads are `kWh`,
  `type`, `household_size`, `region`); a `PyVal` is either a number or a string,
  which are the value shapes relevant to the code's conversions.
* A raised-and-caught Python exception is modelled as `Option.none` from the
  partial step that raises; `calculate_from_energy_data`'s `try/except` is the
  `Option.getD errorResult` at the end.
* The pre-trained regression model (`self.model.predict`) is an opaque learned
  artifact; it is modelled as an abstract function parameter
  `model : ℚ → ℚ → ℚ → ℚ → ℚ` applied to the code's feature vector
  `(kwh, household_size, 1.0, 0.8)`.
* `round(x, 2)`, `round(x, 1)` and the `:.0f` format are Python's
  round-half-to-even, embedded exactly on rationals.
* The regular expressions in `parse_utility_bill` are embedded as anchored
  matchers with Python's leftmost, greedy-with-backtracking semantics for the
  exact patterns in the source.
-/

set_option maxRecDepth 10000
set_option linter.unusedVariables false

namespace EcoX

/-- Python scalar values as they appear in the energy-data map: numbers
(int/float, both exact here) or strings. -/
inductive PyVal where
  | num (q : ℚ)
  | str (s : String)
deriving DecidableEq

/-- The energy-data dict read by `CarbonCalculator`: only the keys `kWh`,
`type`, `household_size`, `region` are ever accessed (app.py lines 99-102,
154-161, 167, 194). An absent key is `none`. -/
structure EnergyData where
  kWh : Option PyVal := none
  type : Option PyVal := none
  household_size : Option PyVal := none
  region : Option PyVal := none
deriving DecidableEq

/-- Python whitespace class `\s` (ASCII part, which is all the texts use). -/
def isSpaceCh (c : Char) : Bool :=
  c = ' ' || c = '\t' || c = '\n' || c = '\r' || c = '\x0B' || c = '\x0C'

/-- Python word-character class `\w` (ASCII part). -/
def isWordCh (c : Char) : Bool := c.isAlphanum || c = '_'

def stripWs (l : List Char) : List Char :=
  ((l.dropWhile isSpaceCh).reverse.dropWhile isSpaceCh).reverse

def digitsToNat (l : List Char) : ℕ :=
  l.foldl (fun a c => 10 * a + (c.toNat - 48)) 0

/-- Unsigned decimal literal `digits [. digits]` as a rational; `none` mirrors
Python's `ValueError` from `float(...)`. -/
def parseFloatCore (l : List Char) : Option ℚ :=
  let ds := l.takeWhile Char.isDigit
  let r := l.dropWhile Char.isDigit
  match r with
  | [] => if ds.isEmpty then none else some (digitsToNat ds : ℚ)
  | '.' :: fs =>
    if fs.all Char.isDigit && !(ds.isEmpty && fs.isEmpty) then
      some ((digitsToNat ds : ℚ) + (digitsToNat fs : ℚ) / (10 ^ fs.length))
    else none
  | _ => none

/-- Python `float(s)` on a string, restricted to the sign/digits/decimal-point
forms (the exponent, inf and nan forms are never exercised by the claims). -/
def parseFloatQ (s : String) : Option ℚ :=
  match stripWs s.toList with
  | '-' :: l => (parseFloatCore l).map (fun q => -q)
  | '+' :: l => parseFloatCore l
  | l => parseFloatCore l

def parseIntDigits (l : List Char) : Option ℤ :=
  if l.isEmpty then none
  else if l.all Char.isDigit then some (digitsToNat l : ℤ) else none

/-- Python `int(s)` on a string: an optional sign followed by digits only. -/
def parseIntStr (s : String) : Option ℤ :=
  match stripWs s.toList with
  | '-' :: l => (parseIntDigits l).map (fun z => -z)
  | '+' :: l => parseIntDigits l
  | l => parseIntDigits l

/-- Python `float(v)`: numbers pass through, strings are parsed, anything
unparsable raises (`none`). -/
def pyFloat : PyVal → Option ℚ
  | .num q => some q
  | .str s => parseFloatQ s

/-- Python `int(float)` truncates toward zero. -/
def ratTrunc (q : ℚ) : ℤ := if 0 ≤ q then ⌊q⌋ else -⌊-q⌋

/-- Python `int(v)`. -/
def pyInt : PyVal → Option ℤ
  | .num q => some (ratTrunc q)
  | .str s => parseIntStr s

/-- Python `v > 0` as used in `calculate_confidence` (app.py line 154): defined
for numbers, a `TypeError` (here `none`) for strings. -/
def pyGtZeroB : PyVal → Option Bool
  | .num q => some (decide (0 < q))
  | .str _ => none

/-- EMISSION_FACTORS dict, app.py lines 37-46 (kg CO2 per unit). -/
def EMISSION_FACTORS : String → Option ℚ := fun k =>
  if k = "electricity_grid" then some (416 / 1000)
  else if k = "natural_gas" then some (202 / 1000)
  else if k = "gasoline" then some (231 / 100)
  else if k = "diesel" then some (268 / 100)
  else if k = "coal" then some (820 / 1000)
  else if k = "solar" then some (41 / 1000)
  else if k = "wind" then some (11 / 1000)
  else if k = "hydro" then some (24 / 1000)
  else none

/-- `EMISSION_FACTORS['electricity_grid']` (a direct index that always hits). -/
def gridCoeff : ℚ := (EMISSION_FACTORS "electricity_grid").getD 0

/-- `EMISSION_FACTORS.get(energy_type, EMISSION_FACTORS['electricity_grid'])`,
app.py line 105.  A non-string key is hashable but never present, so it also
falls back to the grid coefficient. -/
def factorLookup : PyVal → ℚ
  | .str k => (EMISSION_FACTORS k).getD gridCoeff
  | .num _ => gridCoeff

/-- Python `round` to the nearest integer, ties to even (banker's rounding). -/
def rhe (x : ℚ) : ℤ :=
  if x - ⌊x⌋ < 1 / 2 then ⌊x⌋
  else if 1 / 2 < x - ⌊x⌋ then ⌊x⌋ + 1
  else if ⌊x⌋ % 2 = 0 then ⌊x⌋ else ⌊x⌋ + 1

/-- Python `round(x, 2)`. -/
def round2 (x : ℚ) : ℚ := (rhe (100 * x) : ℚ) / 100

/-- Python `round(x, 1)`. -/
def round1 (x : ℚ) : ℚ := (rhe (10 * x) : ℚ) / 10

/-- CarbonCalculator.calculate_confidence, app.py lines 149-163.  Raises
(`none`) when `data['kWh'] > 0` compares a string against an int. -/
def calculate_confidence (d : EnergyData) : Option ℚ :=
  let addTy : ℚ := if d.type.isSome then 1 / 10 else 0
  let addHs : ℚ := if d.household_size.isSome then 1 / 10 else 0
  let addRe : ℚ := if d.region.isSome then 1 / 10 else 0
  match d.kWh with
  | none => some (min ((1 / 2 + 0) + addTy + addHs + addRe) 1)
  | some v =>
    match pyGtZeroB v with
    | none => none
    | some b => some (min ((1 / 2 + (if b then 1 / 5 else 0)) + addTy + addHs + addRe) 1)

/-- One entry of the savings_potential dict (app.py lines 174-190); the field
names follow the source's dict keys. -/
structure SavingsMeasure where
  kwh_saved : ℚ
  co2_saved : ℚ
  cost_easy : String
deriving DecidableEq

structure SavingsPotential where
  led_lighting : SavingsMeasure
  smart_thermostat : SavingsMeasure
  efficient_appliances : SavingsMeasure
deriving DecidableEq

/-- CarbonCalculator.calculate_savings_potential, app.py lines 165-190. -/
def calculate_savings_potential (d : EnergyData) : Option SavingsPotential :=
  match pyFloat (d.kWh.getD (.num 0)) with
  | none => none
  | some q =>
    some
      { led_lighting :=
          { kwh_saved := round1 (q * (3 / 20))
            co2_saved := round2 (q * (3 / 20) * gridCoeff)
            cost_easy := "Easy" }
        smart_thermostat :=
          { kwh_saved := round1 (q * (3 / 25))
            co2_saved := round2 (q * (3 / 25) * gridCoeff)
            cost_easy := "Medium" }
        efficient_appliances :=
          { kwh_saved := round1 (q * (1 / 5))
            co2_saved := round2 (q * (1 / 5) * gridCoeff)
            cost_easy := "Hard" } }

structure Recommendation where
  title : String
  description : String
  impact : String
  effort : String
  potential_savings : String
deriving DecidableEq

/-- CarbonCalculator.generate_recommendations, app.py lines 192-223.  The
`co2_amount` parameter is accepted but unused, as in the source; the three
sequential appends are written as one concatenation. -/
def generate_recommendations (d : EnergyData) (co2_amount : ℚ) : Option (List Recommendation) :=
  match pyFloat (d.kWh.getD (.num 0)) with
  | none => none
  | some kwh =>
    some
      ((if 1000 < kwh then
          [{ title := "High Energy Usage Detected"
             description := "Consider upgrading to energy-efficient appliances"
             impact := "High", effort := "Medium"
             potential_savings := toString (rhe (kwh * (1 / 5))) ++ " kWh/month" }]
        else []) ++
       (if 500 < kwh then
          [{ title := "LED Lighting Upgrade"
             description := "Replace incandescent bulbs with LED lighting"
             impact := "Medium", effort := "Easy"
             potential_savings := toString (rhe (kwh * (3 / 20))) ++ " kWh/month" }]
        else []) ++
       [{ title := "Smart Thermostat"
          description := "Install a programmable smart thermostat"
          impact := "Medium", effort := "Medium"
          potential_savings := toString (rhe (kwh * (3 / 25))) ++ " kWh/month" }])

structure Breakdown where
  energy_type : PyVal
  consumption_kwh : ℚ
  emission_factor : ℚ
  basic_calculation : ℚ
  ml_enhanced : ℚ
deriving DecidableEq

/-- Result dict of `calculate_from_energy_data`.  A success result carries
`breakdown`, `savings_potential` and `recommendations`; the `except` branch
result (app.py lines 143-147) carries none of them and sets `error` (the
error text itself is the Python exception rendering, modelled as the flag). -/
structure CalcResult where
  co2_kg : ℚ
  confidence : ℚ
  breakdown : Option Breakdown
  savings_potential : Option SavingsPotential
  recommendations : Option (List Recommendation)
  error : Bool
deriving DecidableEq

/-- The dict returned by the `except` branch, app.py lines 143-147. -/
def errorResult : CalcResult :=
  { co2_kg := 0, confidence := 0, breakdown := none, savings_potential := none
    recommendations := none, error := true }

/-- The `try` body of CarbonCalculator.calculate_from_energy_data, app.py
lines 98-139; `none` when any step raises. -/
def calcSuccess? (model : ℚ → ℚ → ℚ → ℚ → ℚ) (d : EnergyData) : Option CalcResult := do
  let kwh ← pyFloat (d.kWh.getD (.num 0))
  let energy_type := d.type.getD (.str "electricity_grid")
  let hs ← pyInt (d.household_size.getD (.num 2))
  let emission_factor := factorLookup energy_type
  let basic_co2 := kwh * emission_factor
  let ml_co2 := model kwh (hs : ℚ) 1 (4 / 5)
  let final_co2 := (basic_co2 + ml_co2) / 2
  let conf ← calculate_confidence d
  let savings ← calculate_savings_potential d
  let recs ← generate_recommendations d final_co2
  some
    { co2_kg := round2 final_co2
      confidence := conf
      breakdown := some
        { energy_type := energy_type, consumption_kwh := kwh
          emission_factor := emission_factor
          basic_calculation := round2 basic_co2
          ml_enhanced := round2 ml_co2 }
      savings_potential := some savings
      recommendations := some recs
      error := false }

/-- CarbonCalculator.calculate_from_energy_data, app.py lines 96-147:
the `try` body with the `except` fallback. -/
def calculate_from_energy_data (model : ℚ → ℚ → ℚ → ℚ → ℚ) (d : EnergyData) : CalcResult :=
  (calcSuccess? model d).getD errorResult

/-! Regex machinery for ImageAnalyzer.parse_utility_bill, app.py lines 264-325.
Each source pattern is embedded as an anchored matcher tried at every position
from the left (`searchFor`), reproducing `re.search`'s leftmost-match rule. -/

def charCI (a b : Char) : Bool := a.toLower = b.toLower

/-- Case-insensitive literal at the front; returns the rest on success. -/
def litCIAt : List Char → List Char → Option (List Char)
  | [], s => some s
  | _ :: _, [] => none
  | p :: ps, c :: s => if charCI c p then litCIAt ps s else none

/-- Greedy `\s*`.  For every pattern below the token after `\s*` can never
begin with a whitespace character, so maximal munch is exact. -/
def dropWs (s : List Char) : List Char := s.dropWhile isSpaceCh

/-- Greedy `:?`; the token after it can never be a colon, so taking the colon
when present is exact. -/
def optColon : List Char → List Char
  | ':' :: s => s
  | s => s

/-- Greedy `\$?`. -/
def optDollar : List Char → List Char
  | '$' :: s => s
  | s => s

/-- The capture `(\d+(?:\.\d+)?)` at the front: greedy digits, then an optional
`.digits` group.  Tokens following this capture in the source patterns never
start with a digit or a dot, so greedy matching is exact. -/
def numAt (s : List Char) : Option (List Char × List Char) :=
  let ds := s.takeWhile Char.isDigit
  let r1 := s.dropWhile Char.isDigit
  if ds.isEmpty then none
  else
    match r1 with
    | '.' :: r2 =>
      let fs := r2.takeWhile Char.isDigit
      if fs.isEmpty then some (ds, r1)
      else some (ds ++ '.' :: fs, r2.dropWhile Char.isDigit)
    | _ => some (ds, r1)

/-- Leftmost search: try the anchored matcher at each position left to right. -/
def searchFor (f : List Char → Option α) : List Char → Option α
  | [] => f []
  | c :: s =>
    match f (c :: s) with
    | some a => some a
    | none => searchFor f s

/-- Pattern `(\d+(?:\.\d+)?)\s*kWh` with re.IGNORECASE (and its uppercase
`KWH` twin, which is the same pattern under IGNORECASE). -/
def kwhNumAt (s : List Char) : Option (List Char) :=
  match numAt s with
  | none => none
  | some (cap, r) =>
    match litCIAt "kwh".toList (dropWs r) with
    | some _ => some cap
    | none => none

/-- Pattern `Total\s*Usage:?\s*(\d+(?:\.\d+)?)` with re.IGNORECASE. -/
def totalUsageAt (s : List Char) : Option (List Char) :=
  match litCIAt "total".toList s with
  | none => none
  | some r1 =>
    match litCIAt "usage".toList (dropWs r1) with
    | none => none
    | some r2 => (numAt (dropWs (optColon r2))).map Prod.fst

/-- Pattern `Energy\s*Used:?\s*(\d+(?:\.\d+)?)` with re.IGNORECASE. -/
def energyUsedAt (s : List Char) : Option (List Char) :=
  match litCIAt "energy".toList s with
  | none => none
  | some r1 =>
    match litCIAt "used".toList (dropWs r1) with
    | none => none
    | some r2 => (numAt (dropWs (optColon r2))).map Prod.fst

/-- The kwh_patterns loop, app.py lines 276-295: first pattern with a match
anywhere wins; the second (`KWH`) pattern coincides with the first under
IGNORECASE but is still tried, as in the source. -/
def extractKwh (t : List Char) : Option (List Char) :=
  match searchFor kwhNumAt t with
  | some cap => some cap
  | none =>
    match searchFor kwhNumAt t with
    | some cap => some cap
    | none =>
      match searchFor totalUsageAt t with
      | some cap => some cap
      | none => searchFor energyUsedAt t

/-- Pattern `\$(\d+(?:\.\d+)?)`. -/
def dollarAt : List Char → Option (List Char)
  | '$' :: r => (numAt r).map Prod.fst
  | _ => none

/-- Pattern `Total\s*Amount:?\s*\$?(\d+(?:\.\d+)?)` with re.IGNORECASE. -/
def totalAmountAt (s : List Char) : Option (List Char) :=
  match litCIAt "total".toList s with
  | none => none
  | some r1 =>
    match litCIAt "amount".toList (dropWs r1) with
    | none => none
    | some r2 => (numAt (optDollar (dropWs (optColon r2)))).map Prod.fst

/-- Pattern `Amount\s*Due:?\s*\$?(\d+(?:\.\d+)?)` with re.IGNORECASE. -/
def amountDueAt (s : List Char) : Option (List Char) :=
  match litCIAt "amount".toList s with
  | none => none
  | some r1 =>
    match litCIAt "due".toList (dropWs r1) with
    | none => none
    | some r2 => (numAt (optDollar (dropWs (optColon r2)))).map Prod.fst

/-- The amount_patterns loop, app.py lines 283-303. -/
def extractAmount (t : List Char) : Option (List Char) :=
  match searchFor dollarAt t with
  | some cap => some cap
  | none =>
    match searchFor totalAmountAt t with
    | some cap => some cap
    | none => searchFor amountDueAt t

/-- Run length of a character class at the front. -/
def runLen (p : Char → Bool) (s : List Char) : ℕ := (s.takeWhile p).length

/-- Candidate repeat counts for a bounded greedy repetition, longest first:
`[n, n-1, ..., lo]`. -/
def descRange (lo n : ℕ) : List ℕ := (List.range (n + 1 - lo)).map (fun i => n - i)

/-- Candidates for `,?`, greedy: take the comma first when present. -/
def commaOpts : List Char → List ℕ
  | ',' :: _ => [1, 0]
  | _ => [0]

/-- The date pattern `(\w+\s+\d{1,2},?\s+\d{4})` anchored at the front, with
Python's greedy-then-backtrack order across `\w+`, `\s+`, `\d{1,2}`, `,?`,
`\s+`; returns the matched chars and the rest. -/
def dateAt (s : List Char) : Option (List Char × List Char) :=
  (descRange 1 (runLen isWordCh s)).findSome? fun w =>
    let s1 := s.drop w
    (descRange 1 (runLen isSpaceCh s1)).findSome? fun a =>
      let s2 := s1.drop a
      (descRange 1 (min (runLen Char.isDigit s2) 2)).findSome? fun dd =>
        let s3 := s2.drop dd
        (commaOpts s3).findSome? fun co =>
          let s4 := s3.drop co
          (descRange 1 (runLen isSpaceCh s4)).findSome? fun b =>
            let s5 := s4.drop b
            if (s5.take 4).length = 4 && (s5.take 4).all Char.isDigit then
              some (s.take (w + a + dd + co + b + 4), s.drop (w + a + dd + co + b + 4))
            else none

/-- `re.findall` for the date pattern: scan left to right, continue after each
match.  Every match consumes at least one character, so fuel equal to the
text length always suffices. -/
def findDatesF : ℕ → List Char → List (List Char)
  | 0, _ => []
  | _ + 1, [] => []
  | fuel + 1, c :: s =>
    match dateAt (c :: s) with
    | some (cap, rest) => cap :: findDatesF fuel rest
    | none => findDatesF fuel s

def findDates (t : List Char) : List (List Char) := findDatesF t.length t

def isPrefCI : List Char → List Char → Bool
  | [], _ => true
  | _ :: _, [] => false
  | p :: ps, c :: s => charCI p c && isPrefCI ps s

/-- Case-insensitive substring test (`provider.lower() in text.lower()`). -/
def containsCI (needle : List Char) : List Char → Bool
  | [] => isPrefCI needle []
  | c :: s => isPrefCI needle (c :: s) || containsCI needle s

def isPrefCS : List Char → List Char → Bool
  | [], _ => true
  | _ :: _, [] => false
  | p :: ps, c :: s => p = c && isPrefCS ps s

/-- Case-sensitive substring test (used only to state claims about texts
"containing" given substrings). -/
def containsCS (needle : List Char) : List Char → Bool
  | [] => isPrefCS needle []
  | c :: s => isPrefCS needle (c :: s) || containsCS needle s

/-- The providers list, app.py line 313. -/
def providers : List String :=
  ["PG&E", "ConEd", "Duke Energy", "Southern Company", "Electric Company"]

/-- The provider loop, app.py lines 313-318: first list entry found in the
text wins. -/
def findProvider (t : List Char) : Option String :=
  providers.find? fun p => containsCI p.toList t

/-- Result dict of parse_utility_bill, app.py lines 266-272. -/
structure ExtractedBillData where
  kwh : ℚ
  amount : ℚ
  service_period : String
  provider : String
  confidence : ℚ
deriving DecidableEq

/-- `float` of a capture of `(\d+(?:\.\d+)?)` (always succeeds). -/
def capQ (l : List Char) : ℚ := (parseFloatCore l).getD 0

/-- ImageAnalyzer.parse_utility_bill, app.py lines 264-325.  No step of the
embedded body can raise, so the source's try/except is inert here. -/
def parse_utility_bill (text : String) : ExtractedBillData :=
  let t := text.toList
  let kwhM := extractKwh t
  let amtM := extractAmount t
  let dates := findDates t
  let provM := findProvider t
  let conf : ℚ :=
    (if kwhM.isSome then 3 / 10 else 0) + (if amtM.isSome then 1 / 5 else 0)
      + (if 2 ≤ dates.length then 1 / 5 else 0) + (if provM.isSome then 1 / 10 else 0)
  { kwh := match kwhM with | some cap => capQ cap | none => 0
    amount := match amtM with | some cap => capQ cap | none => 0
    service_period :=
      match dates with
      | d1 :: d2 :: _ => String.mk d1 ++ " - " ++ String.mk d2
      | _ => ""
    provider := (findProvider t).getD ""
    confidence := min conf 1 }

/-- The estimation step of the analyze_image route, app.py lines 381-387:
after OCR and parsing, estimation runs iff the parsed kwh is positive, with
the record `{'kWh': parsed['kwh'], 'type': 'electricity_grid'}`. -/
def analyze_image_carbon (model : ℚ → ℚ → ℚ → ℚ → ℚ) (text : String) : Option CalcResult :=
  let parsed := parse_utility_bill text
  if 0 < parsed.kwh then
    some (calculate_from_energy_data model
      { kWh := some (.num parsed.kwh), type := some (.str "electricity_grid") })
  else none

/-! Concrete models and inputs used by witnesses and counterexamples. -/

def zModel : ℚ → ℚ → ℚ → ℚ → ℚ := fun _ _ _ _ => 0

def wModel : ℚ → ℚ → ℚ → ℚ → ℚ := fun _ _ _ _ => 100

def strInput : EnergyData := { kWh := some (.str "500") }

def abcInput : EnergyData := { kWh := some (.str "abc") }

def d1000 : EnergyData := { kWh := some (.num 1000) }

def d1500 : EnergyData := { kWh := some (.num 1500) }

def d600 : EnergyData := { kWh := some (.num 600) }

def d100 : EnergyData := { kWh := some (.num 100) }

def dFull : EnergyData :=
  { kWh := some (.num 800), type := some (.str "coal")
    household_size := some (.num 3), region := some (.str "EU") }

def tGood : String :=
  "Total Usage: 850 kWh Amount Due: $120.50 January 1, 2024 January 31, 2024"

def tBad : String :=
  "12 kWh noted. Total Usage: 850 kWh Amount Due: $120.50 January 1, 2024 January 31, 2024"

/-! Theorems.  Batteries marks the `Rat` field operations `@[irreducible]`,
which blocks kernel evaluation by `decide`; they are restored to their normal
reducibility for this section (a purely elaboration-level setting). -/

section

attribute [local semireducible] Rat.add Rat.mul Rat.inv Rat.sub

/-- When the kWh entry is absent (with quantity defaulting to 0) or is an
actual number, the code's `float(...)` conversion yields exactly that
quantity. -/
theorem pf_of_hk (d : EnergyData) (q : ℚ)
    (hk : d.kWh = none ∧ q = 0 ∨ d.kWh = some (.num q)) :
    pyFloat (d.kWh.getD (.num 0)) = some q := by
  rcases hk with ⟨h1, h2⟩ | h1 <;> subst_vars <;> simp [h1, pyFloat]

/-- Closed form of `calculate_confidence` on inputs whose kWh entry is absent
or numeric. -/
theorem conf_eq (d : EnergyData) (q : ℚ)
    (hk : d.kWh = none ∧ q = 0 ∨ d.kWh = some (.num q)) :
    calculate_confidence d =
      some (min ((1 / 2 + (if 0 < q then (1 / 5 : ℚ) else 0))
        + (if d.type.isSome then (1 / 10 : ℚ) else 0)
        + (if d.household_size.isSome then (1 / 10 : ℚ) else 0)
        + (if d.region.isSome then (1 / 10 : ℚ) else 0)) 1) := by
  rcases hk with ⟨h1, h2⟩ | h1 <;> subst_vars <;> simp [calculate_confidence, h1, pyGtZeroB]

/-- Closed form of `calculate_savings_potential` when the quantity converts. -/
theorem sav_eq (d : EnergyData) (q : ℚ)
    (hpf : pyFloat (d.kWh.getD (.num 0)) = some q) :
    calculate_savings_potential d =
      some
        { led_lighting :=
            { kwh_saved := round1 (q * (3 / 20))
              co2_saved := round2 (q * (3 / 20) * gridCoeff)
              cost_easy := "Easy" }
          smart_thermostat :=
            { kwh_saved := round1 (q * (3 / 25))
              co2_saved := round2 (q * (3 / 25) * gridCoeff)
              cost_easy := "Medium" }
          efficient_appliances :=
            { kwh_saved := round1 (q * (1 / 5))
              co2_saved := round2 (q * (1 / 5) * gridCoeff)
              cost_easy := "Hard" } } := by
  simp [calculate_savings_potential, hpf]

/-- Closed form of `generate_recommendations` when the quantity converts. -/
theorem rec_eq (d : EnergyData) (q : ℚ)
    (hpf : pyFloat (d.kWh.getD (.num 0)) = some q) (c : ℚ) :
    generate_recommendations d c =
      some
        ((if 1000 < q then
            [{ title := "High Energy Usage Detected"
               description := "Consider upgrading to energy-efficient appliances"
               impact := "High", effort := "Medium"
               potential_savings := toString (rhe (q * (1 / 5))) ++ " kWh/month" }]
          else []) ++
         (if 500 < q then
            [{ title := "LED Lighting Upgrade"
               description := "Replace incandescent bulbs with LED lighting"
               impact := "Medium", effort := "Easy"
               potential_savings := toString (rhe (q * (3 / 20))) ++ " kWh/month" }]
          else []) ++
         [{ title := "Smart Thermostat"
            description := "Install a programmable smart thermostat"
            impact := "Medium", effort := "Medium"
            potential_savings := toString (rhe (q * (3 / 25))) ++ " kWh/month" }]) := by
  simp [generate_recommendations, hpf]

/-- Key projections of a successful estimation. -/
theorem calc_eq (model : ℚ → ℚ → ℚ → ℚ → ℚ) (d : EnergyData) (q : ℚ) (hs : ℤ) (c : ℚ)
    (hpf : pyFloat (d.kWh.getD (.num 0)) = some q)
    (hhs : pyInt (d.household_size.getD (.num 2)) = some hs)
    (hc : calculate_confidence d = some c) :
    (calculate_from_energy_data model d).co2_kg =
      round2 ((q * factorLookup (d.type.getD (.str "electricity_grid"))
        + model q (hs : ℚ) 1 (4 / 5)) / 2) ∧
    (calculate_from_energy_data model d).confidence = c ∧
    (calculate_from_energy_data model d).error = false := by
  simp [calculate_from_energy_data, calcSuccess?, hpf, hhs, hc,
    sav_eq d q hpf, rec_eq d q hpf]

/-- Any successfully-built result has `error = false` and all three optional
sections present. -/
theorem calcSuccessShape (model : ℚ → ℚ → ℚ → ℚ → ℚ) (d : EnergyData) (v : CalcResult)
    (h : calcSuccess? model d = some v) :
    v.error = false ∧ v.breakdown.isSome ∧ v.savings_potential.isSome ∧
      v.recommendations.isSome := by
  simp only [calcSuccess?, bind, Option.bind_eq_some] at h
  obtain ⟨kwh, h1, hs, h2, conf, h3, sav, h4, recs, h5, h6⟩ := h
  cases h6
  simp

/-- Every estimation result is either the error dict or a complete success
result. -/
theorem calc_result_cases (model : ℚ → ℚ → ℚ → ℚ → ℚ) (d : EnergyData) :
    calculate_from_energy_data model d = errorResult ∨
      ((calculate_from_energy_data model d).error = false ∧
       (calculate_from_energy_data model d).breakdown.isSome ∧
       (calculate_from_energy_data model d).savings_potential.isSome ∧
       (calculate_from_energy_data model d).recommendations.isSome) := by
  rcases hOpt : calcSuccess? model d with _ | v
  · left; simp [calculate_from_energy_data, hOpt]
  · right
    have hv := calcSuccessShape model d v hOpt
    simpa [calculate_from_energy_data, hOpt] using hv

theorem rhe_nonneg (x : ℚ) (hx : 0 ≤ x) : 0 ≤ rhe x := by
  unfold rhe
  have h0 : (0 : ℤ) ≤ ⌊x⌋ := Int.floor_nonneg.mpr hx
  split_ifs <;> omega

theorem round2_nonneg (x : ℚ) (hx : 0 ≤ x) : 0 ≤ round2 x := by
  unfold round2
  have h := rhe_nonneg (100 * x) (by positivity)
  have h2 : (0 : ℚ) ≤ (rhe (100 * x) : ℚ) := by exact_mod_cast h
  positivity

theorem factorLookup_nonneg (v : PyVal) : 0 ≤ factorLookup v := by
  cases v with
  | num q => norm_num [factorLookup, gridCoeff, EMISSION_FACTORS]
  | str s =>
    simp only [factorLookup, EMISSION_FACTORS]
    split_ifs <;> norm_num [gridCoeff, EMISSION_FACTORS]

/-- C1 (counterexample): with the consumption quantity supplied as the numeric
string "500" — which does parse to the float 500 ≥ 0 — the returned co2_kg is
0, not the 2-decimal rounding of the unweighted mean of the formula estimate
and the model prediction (104 for the constant-zero model). -/
theorem string_quantity_breaks_mean :
    pyFloat (.str "500") = some 500 ∧ (0 : ℚ) ≤ 500 ∧
    (calculate_from_energy_data zModel strInput).co2_kg = 0 ∧
    round2 ((500 * factorLookup (strInput.type.getD (.str "electricity_grid"))
      + zModel 500 ((2 : ℤ) : ℚ) 1 (4 / 5)) / 2) = 104 ∧
    (0 : ℚ) ≠ 104 := by
  refine ⟨by decide, by norm_num, by decide, by decide, by norm_num⟩

/-- C1 (amended): for every input map whose consumption quantity is absent or
an actual number q ≥ 0 and whose household size converts to an int, co2_kg
equals the 2-decimal rounding of the unweighted arithmetic mean of the formula
estimate `q * factor` and the regression model's prediction on the feature
vector `(q, household_size, 1.0, 0.8)`, and is non-negative whenever the model
prediction is non-negative. -/
theorem co2_mean_of_formula_and_model (model : ℚ → ℚ → ℚ → ℚ → ℚ) (d : EnergyData)
    (q : ℚ) (hs : ℤ)
    (hk : d.kWh = none ∧ q = 0 ∨ d.kWh = some (.num q))
    (hhs : pyInt (d.household_size.getD (.num 2)) = some hs)
    (hq0 : 0 ≤ q) (hml : 0 ≤ model q (hs : ℚ) 1 (4 / 5)) :
    (calculate_from_energy_data model d).co2_kg =
      round2 ((q * factorLookup (d.type.getD (.str "electricity_grid"))
        + model q (hs : ℚ) 1 (4 / 5)) / 2) ∧
    0 ≤ (calculate_from_energy_data model d).co2_kg := by
  have hpf := pf_of_hk d q hk
  have hc := conf_eq d q hk
  have h := calc_eq model d q hs _ hpf hhs hc
  refine ⟨h.1, ?_⟩
  rw [h.1]
  apply round2_nonneg
  have h1 : 0 ≤ q * factorLookup (d.type.getD (.str "electricity_grid")) :=
    mul_nonneg hq0 (factorLookup_nonneg _)
  exact div_nonneg (add_nonneg h1 hml) (by norm_num)

/-- C1 witness at q = 1000, household size defaulting to 2, constant-100
model. -/
theorem co2_mean_of_formula_and_model_witness :
    pyInt (d1000.household_size.getD (.num 2)) = some 2 ∧ (0 : ℚ) ≤ 1000 ∧
    0 ≤ wModel 1000 ((2 : ℤ) : ℚ) 1 (4 / 5) ∧
    ((calculate_from_energy_data wModel d1000).co2_kg =
      round2 ((1000 * factorLookup (d1000.type.getD (.str "electricity_grid"))
        + wModel 1000 ((2 : ℤ) : ℚ) 1 (4 / 5)) / 2) ∧
     0 ≤ (calculate_from_energy_data wModel d1000).co2_kg) :=
  ⟨by decide, by norm_num, by decide,
    co2_mean_of_formula_and_model wModel d1000 1000 2 (Or.inr rfl) (by decide)
      (by norm_num) (by decide)⟩

/-- C2 (counterexample): on a conversion error (kWh = "abc") the returned dict
has co2_kg = 0, confidence = 0 and the error field, but it does NOT have the
structure of a success result: breakdown, savings_potential and
recommendations are all absent, while a success result carries them. -/
theorem error_result_missing_breakdown :
    pyFloat (.str "abc") = none ∧
    (calculate_from_energy_data zModel abcInput).co2_kg = 0 ∧
    (calculate_from_energy_data zModel abcInput).confidence = 0 ∧
    (calculate_from_energy_data zModel abcInput).error = true ∧
    (calculate_from_energy_data zModel abcInput).breakdown = none ∧
    (calculate_from_energy_data zModel abcInput).savings_potential = none ∧
    (calculate_from_energy_data zModel abcInput).recommendations = none ∧
    (calculate_from_energy_data zModel d1000).breakdown ≠ none := by decide

/-- C2 (amended): estimation never raises; on any internal conversion error it
returns the fixed error dict with co2_kg = 0, confidence = 0 and the error
description field — but that dict carries only those fields, with breakdown,
savings_potential and recommendations absent (unlike every success result,
which carries all three). -/
theorem error_result_shape (model : ℚ → ℚ → ℚ → ℚ → ℚ) (d : EnergyData) :
    ((calculate_from_energy_data model d).error = true →
      calculate_from_energy_data model d = errorResult) ∧
    ((calculate_from_energy_data model d).error = false →
      (calculate_from_energy_data model d).breakdown.isSome ∧
      (calculate_from_energy_data model d).savings_potential.isSome ∧
      (calculate_from_energy_data model d).recommendations.isSome) ∧
    errorResult.co2_kg = 0 ∧ errorResult.confidence = 0 ∧ errorResult.error = true ∧
    errorResult.breakdown = none ∧ errorResult.savings_potential = none ∧
    errorResult.recommendations = none := by
  rcases calc_result_cases model d with h | ⟨he, hb, hsv, hr⟩
  · refine ⟨fun _ => h, fun hf => ?_, rfl, rfl, rfl, rfl, rfl, rfl⟩
    rw [h] at hf
    simp [errorResult] at hf
  · refine ⟨fun ht => ?_, fun _ => ⟨hb, hsv, hr⟩, rfl, rfl, rfl, rfl, rfl, rfl⟩
    rw [ht] at he
    simp at he

/-- C2 witness: the error shape at kWh = "abc", the success shape at a numeric
input. -/
theorem error_result_shape_witness :
    (calculate_from_energy_data zModel abcInput).error = true ∧
    calculate_from_energy_data zModel abcInput = errorResult ∧
    (calculate_from_energy_data zModel d1000).error = false ∧
    ((calculate_from_energy_data zModel d1000).breakdown.isSome ∧
     (calculate_from_energy_data zModel d1000).savings_potential.isSome ∧
     (calculate_from_energy_data zModel d1000).recommendations.isSome) :=
  ⟨by decide, (error_result_shape zModel abcInput).1 (by decide), by decide,
    (error_result_shape zModel d1000).2.1 (by decide)⟩

/-- C3 (counterexample): for the input map {kWh: "500"} the claim's formula
gives 0.5 + 0.2 = 0.7, but the estimation result's confidence is 0, because
comparing the raw string against 0 raises and the error path is taken. -/
theorem string_quantity_zero_confidence :
    pyFloat (.str "500") = some 500 ∧
    (calculate_from_energy_data zModel strInput).confidence = 0 ∧
    min ((1 / 2 + (if (0 : ℚ) < 500 then (1 / 5 : ℚ) else 0)) + 0 + 0 + 0) 1 = 7 / 10 ∧
    (0 : ℚ) ≠ 7 / 10 := by decide

/-- C3 (amended): for every input map whose kWh entry is absent or an actual
number q (and whose household size converts), the result's confidence equals
0.5, plus 0.2 if q > 0, plus 0.1 for each of type, household_size, region
present in the original map, clamped to at most 1; in particular it always
lies in [0, 1]. -/
theorem confidence_formula (model : ℚ → ℚ → ℚ → ℚ → ℚ) (d : EnergyData) (q : ℚ) (hs : ℤ)
    (hk : d.kWh = none ∧ q = 0 ∨ d.kWh = some (.num q))
    (hhs : pyInt (d.household_size.getD (.num 2)) = some hs) :
    (calculate_from_energy_data model d).confidence =
      min ((1 / 2 + (if 0 < q then (1 / 5 : ℚ) else 0))
        + (if d.type.isSome then (1 / 10 : ℚ) else 0)
        + (if d.household_size.isSome then (1 / 10 : ℚ) else 0)
        + (if d.region.isSome then (1 / 10 : ℚ) else 0)) 1 ∧
    0 ≤ (calculate_from_energy_data model d).confidence ∧
    (calculate_from_energy_data model d).confidence ≤ 1 := by
  have hpf := pf_of_hk d q hk
  have hc := conf_eq d q hk
  have h := (calc_eq model d q hs _ hpf hhs hc).2.1
  refine ⟨h, ?_, ?_⟩
  · rw [h]
    refine le_min ?_ (by norm_num)
    split_ifs <;> norm_num
  · rw [h]
    exact min_le_right _ _

/-- C3 witness: a fully-populated numeric input map. -/
theorem confidence_formula_witness :
    pyInt (dFull.household_size.getD (.num 2)) = some 3 ∧
    ((calculate_from_energy_data zModel dFull).confidence =
      min ((1 / 2 + (if (0 : ℚ) < 800 then (1 / 5 : ℚ) else 0))
        + (if dFull.type.isSome then (1 / 10 : ℚ) else 0)
        + (if dFull.household_size.isSome then (1 / 10 : ℚ) else 0)
        + (if dFull.region.isSome then (1 / 10 : ℚ) else 0)) 1 ∧
     0 ≤ (calculate_from_energy_data zModel dFull).confidence ∧
     (calculate_from_energy_data zModel dFull).confidence ≤ 1) :=
  ⟨by decide, confidence_formula zModel dFull 800 3 (Or.inr rfl) (by decide)⟩

/-- C4: whenever the consumption quantity converts to q, the recommendation
list is exactly the high-usage appliance warning if q > 1000, then the LED
upgrade if q > 500, then always the smart thermostat last, in that order. -/
theorem recommendations_ordered (d : EnergyData) (q : ℚ)
    (hpf : pyFloat (d.kWh.getD (.num 0)) = some q) (c : ℚ) :
    generate_recommendations d c =
      some
        ((if 1000 < q then
            [{ title := "High Energy Usage Detected"
               description := "Consider upgrading to energy-efficient appliances"
               impact := "High", effort := "Medium"
               potential_savings := toString (rhe (q * (1 / 5))) ++ " kWh/month" }]
          else []) ++
         (if 500 < q then
            [{ title := "LED Lighting Upgrade"
               description := "Replace incandescent bulbs with LED lighting"
               impact := "Medium", effort := "Easy"
               potential_savings := toString (rhe (q * (3 / 20))) ++ " kWh/month" }]
          else []) ++
         [{ title := "Smart Thermostat"
            description := "Install a programmable smart thermostat"
            impact := "Medium", effort := "Medium"
            potential_savings := toString (rhe (q * (3 / 25))) ++ " kWh/month" }]) :=
  rec_eq d q hpf c

/-- C4 witness: the three concrete scenarios q = 1500, 600, 100. -/
theorem recommendations_ordered_witness :
    pyFloat (d1500.kWh.getD (.num 0)) = some 1500 ∧
    generate_recommendations d1500 0 =
      some
        [{ title := "High Energy Usage Detected"
           description := "Consider upgrading to energy-efficient appliances"
           impact := "High", effort := "Medium", potential_savings := "300 kWh/month" },
         { title := "LED Lighting Upgrade"
           description := "Replace incandescent bulbs with LED lighting"
           impact := "Medium", effort := "Easy", potential_savings := "225 kWh/month" },
         { title := "Smart Thermostat"
           description := "Install a programmable smart thermostat"
           impact := "Medium", effort := "Medium", potential_savings := "180 kWh/month" }] ∧
    generate_recommendations d600 0 =
      some
        [{ title := "LED Lighting Upgrade"
           description := "Replace incandescent bulbs with LED lighting"
           impact := "Medium", effort := "Easy", potential_savings := "90 kWh/month" },
         { title := "Smart Thermostat"
           description := "Install a programmable smart thermostat"
           impact := "Medium", effort := "Medium", potential_savings := "72 kWh/month" }] ∧
    generate_recommendations d100 0 =
      some
        [{ title := "Smart Thermostat"
           description := "Install a programmable smart thermostat"
           impact := "Medium", effort := "Medium", potential_savings := "12 kWh/month" }] := by
  refine ⟨by decide, ?_, ?_, ?_⟩
  · rw [recommendations_ordered d1500 1500 (by decide) 0]
    decide
  · rw [recommendations_ordered d600 600 (by decide) 0]
    decide
  · rw [recommendations_ordered d100 100 (by decide) 0]
    decide

/-- C5: whenever the consumption quantity converts to q, the savings potential
holds exactly the three fixed measures (15% Easy, 12% Medium, 20% Hard), with
quantity saved q x percentage and CO2 saved computed against the
electricity_grid coefficient 0.416 — and the result is entirely independent of
the record's declared source kind. -/
theorem savings_use_grid_coefficient (d : EnergyData) (q : ℚ)
    (hpf : pyFloat (d.kWh.getD (.num 0)) = some q) :
    calculate_savings_potential d =
      some
        { led_lighting :=
            { kwh_saved := round1 (q * (3 / 20))
              co2_saved := round2 (q * (3 / 20) * (416 / 1000))
              cost_easy := "Easy" }
          smart_thermostat :=
            { kwh_saved := round1 (q * (3 / 25))
              co2_saved := round2 (q * (3 / 25) * (416 / 1000))
              cost_easy := "Medium" }
          efficient_appliances :=
            { kwh_saved := round1 (q * (1 / 5))
              co2_saved := round2 (q * (1 / 5) * (416 / 1000))
              cost_easy := "Hard" } } ∧
    ∀ v, calculate_savings_potential { d with type := v } = calculate_savings_potential d := by
  constructor
  · have hg : gridCoeff = 416 / 1000 := by decide
    rw [sav_eq d q hpf, hg]
  · intro v
    rfl

/-- C5 witness: q = 1000 gives led kwh_saved = 150.0 and co2_saved = 62.4. -/
theorem savings_use_grid_coefficient_witness :
    pyFloat (d1000.kWh.getD (.num 0)) = some 1000 ∧
    calculate_savings_potential d1000 =
      some
        { led_lighting := { kwh_saved := 150, co2_saved := 312 / 5, cost_easy := "Easy" }
          smart_thermostat := { kwh_saved := 120, co2_saved := 1248 / 25, cost_easy := "Medium" }
          efficient_appliances := { kwh_saved := 200, co2_saved := 416 / 5, cost_easy := "Hard" } } := by
  have h := savings_use_grid_coefficient d1000 1000 (by decide)
  exact ⟨by decide, by rw [h.1]; decide⟩

/-- C6: empty raw text extracts the all-default bill data with confidence 0,
the pipeline then produces no estimation result, and in general the estimation
slot is present iff the extracted quantity is positive. -/
theorem empty_text_extraction :
    parse_utility_bill "" =
      { kwh := 0, amount := 0, service_period := "", provider := "", confidence := 0 } ∧
    (∀ model, analyze_image_carbon model "" = none) ∧
    (∀ model t, (analyze_image_carbon model t).isSome ↔ 0 < (parse_utility_bill t).kwh) := by
  refine ⟨by decide, ?_, ?_⟩
  · intro model
    have h0 : ¬0 < (parse_utility_bill "").kwh := by decide
    simp [analyze_image_carbon, h0]
  · intro model t
    by_cases h : 0 < (parse_utility_bill t).kwh <;> simp [analyze_image_carbon, h]

/-- C7 (counterexample): a text containing "Total Usage: 850 kWh",
"Amount Due: $120.50" and two dates, but with an earlier "12 kWh" occurrence:
the first pattern's leftmost match wins, so the extracted quantity is 12, not
850. -/
theorem earlier_match_overrides :
    containsCS "Total Usage: 850 kWh".toList tBad.toList = true ∧
    containsCS "Amount Due: $120.50".toList tBad.toList = true ∧
    2 ≤ (findDates tBad.toList).length ∧
    (parse_utility_bill tBad).kwh = 12 ∧ (12 : ℚ) ≠ 850 := by decide

/-- C7 (amended): for the scenario text in which "850 kWh" and "$120.50" are
also the leftmost matches of their pattern lists, extraction yields
consumption 850, amount 120.50, the first two dates joined as the service
period, and confidence 0.7 = 0.3 + 0.2 + 0.2 with no provider matched. -/
theorem scenario_bill_extraction :
    containsCS "Total Usage: 850 kWh".toList tGood.toList = true ∧
    containsCS "Amount Due: $120.50".toList tGood.toList = true ∧
    2 ≤ (findDates tGood.toList).length ∧
    parse_utility_bill tGood =
      { kwh := 850, amount := 241 / 2
        service_period := "January 1, 2024 - January 31, 2024"
        provider := "", confidence := 7 / 10 } ∧
    7 / 10 ≤ (parse_utility_bill tGood).confidence := by decide

/-- C8: the emission-factor lookup never fails — every kind present in the
table resolves to its coefficient, any other kind resolves to the
electricity_grid coefficient 0.416, and the table holds exactly the eight
documented coefficients. -/
theorem emission_lookup_total :
    (∀ k c, EMISSION_FACTORS k = some c → factorLookup (.str k) = c) ∧
    (∀ k, EMISSION_FACTORS k = none → factorLookup (.str k) = 416 / 1000) ∧
    EMISSION_FACTORS "electricity_grid" = some (416 / 1000) ∧
    EMISSION_FACTORS "natural_gas" = some (202 / 1000) ∧
    EMISSION_FACTORS "gasoline" = some (231 / 100) ∧
    EMISSION_FACTORS "diesel" = some (268 / 100) ∧
    EMISSION_FACTORS "coal" = some (820 / 1000) ∧
    EMISSION_FACTORS "solar" = some (41 / 1000) ∧
    EMISSION_FACTORS "wind" = some (11 / 1000) ∧
    EMISSION_FACTORS "hydro" = some (24 / 1000) := by
  refine ⟨?_, ?_, by decide, by decide, by decide, by decide, by decide, by decide,
    by decide, by decide⟩
  · intro k c h
    simp [factorLookup, h]
  · intro k h
    simp only [factorLookup, h, Option.getD_none]
    decide

/-- C8 witness: a known kind and an unknown kind. -/
theorem emission_lookup_total_witness :
    EMISSION_FACTORS "coal" = some (820 / 1000) ∧ factorLookup (.str "coal") = 820 / 1000 ∧
    EMISSION_FACTORS "geothermal" = none ∧ factorLookup (.str "geothermal") = 416 / 1000 :=
  ⟨by decide, emission_lookup_total.1 "coal" (820 / 1000) (by decide), by decide,
    emission_lookup_total.2.1 "geothermal" (by decide)⟩

/-- C9: the extraction confidence never exceeds 0.8 for any raw text — the
per-field contributions sum to at most 0.3 + 0.2 + 0.2 + 0.1, so the clamp at
1.0 is unreachable. -/
theorem extraction_confidence_le (text : String) :
    (parse_utility_bill text).confidence ≤ 4 / 5 := by
  unfold parse_utility_bill
  dsimp only
  refine le_trans (min_le_left _ _) ?_
  split_ifs <;> norm_num

/-- C10: a consumption quantity supplied as the numeric string "500" converts
to the valid float 500, yet estimation returns the zero-emission,
zero-confidence error dict, because the confidence computation compares the
raw string against 0 and the resulting TypeError is caught by the surrounding
handler. -/
theorem numeric_string_quantity_errors (model : ℚ → ℚ → ℚ → ℚ → ℚ) :
    pyFloat (.str "500") = some 500 ∧
    calculate_from_energy_data model strInput =
      { co2_kg := 0, confidence := 0, breakdown := none, savings_potential := none
        recommendations := none, error := true } :=
  ⟨by decide, rfl⟩

end

end EcoX
